import Mathlib

/-!
Verification of the FabricObo Python API (src/pythonapi) against its
natural-language specification.

The development shallowly embeds the request/response pipeline of the
repository:

* `models.py` — the response DTOs (`AgentResponse`, `ToolUsageSummary`,
  `EntitlementResult`);
* `foundry_agent_service.py` — `FoundryAgentService.run_agent` and its
  output parser `_parse_output`;
* `auth.py` — `TokenClaims` and `OboTokenService.exchange_token`;
* `main.py` — the SPA dependency `get_current_user` and the orchestration
  of `post_agent`;
* `entitlement_service.py` — `StubEntitlementService.get_entitlement`;
* `bot_handler.py` — `handle_bot_message` together with the connector and
  token-store clients, with every external HTTP/MSAL interaction supplied
  by an explicit environment record and all side effects recorded in an
  effect trace.

Python dictionaries are modelled as association lists whose lookup returns
the first matching key (so that prepending a binding is dict update);
`None`-able values are `Option`; Python exceptions are an explicit
`Except`; strings that the code only compares or concatenates are plain
`String`.
-/

/-- A JSON-object/dict with string values, as used for JWT claim sets.
Lookup takes the first binding, so prepending models `d[k] = v`. -/
abbrev PyDict := List (String × String)

/-- `d.get(k)` on a Python dict: `none` when the key is absent. -/
def dget (d : PyDict) (k : String) : Option String :=
  (d.find? (fun p => p.1 == k)).map (·.2)

/-- Python `a or b` for string-valued `a` with default `b`: the empty
string and `None` are falsy and fall through to the default. -/
def pyOrStr (o : Option String) (dflt : String) : String :=
  match o with
  | some s => if s = "" then dflt else s
  | none => dflt

/-- Python truthiness of an optional string (`None` and `""` are falsy). -/
def pyTruthy (o : Option String) : Bool :=
  (o.getD "") ≠ ""

/-- Python `s.lower()` (ASCII case folding, character by character). -/
def pyLower (s : String) : String :=
  String.mk (s.data.map Char.toLower)

/-- Python `s.strip()`: whitespace removed from both ends. -/
def pyStrip (s : String) : String :=
  String.mk (((s.data.dropWhile Char.isWhitespace).reverse.dropWhile Char.isWhitespace).reverse)

/-- Whether the first character list starts the second. -/
def charsHaveStart : List Char → List Char → Bool
  | [], _ => true
  | _ :: _, [] => false
  | a :: as, b :: bs => a == b && charsHaveStart as bs

/-- Whether the first character list occurs inside the second. -/
def charsContain (pat : List Char) : List Char → Bool
  | [] => charsHaveStart pat []
  | b :: bs => charsHaveStart pat (b :: bs) || charsContain pat bs

/-- Python `pat in s` substring containment. -/
def pyContains (s pat : String) : Bool :=
  charsContain pat.data s.data

/-- Python `sep.join(xs)`. -/
def pyJoin (sep : String) : List String → String
  | [] => ""
  | [x] => x
  | x :: y :: xs => x ++ sep ++ pyJoin sep (y :: xs)

/-- Python `s[:n]` slicing (by characters). -/
def pyTake (s : String) (n : Nat) : String :=
  String.mk (s.data.take n)

/-- `Except.isOk` spelled locally so concrete runs evaluate by `rfl`. -/
def exOk {ε α : Type} : Except ε α → Bool
  | .ok _ => true
  | .error _ => false

/-- `_truncate` from `foundry_agent_service.py`: `value[:n] + "…"` when the
value is longer than `n` characters, the identity otherwise. -/
def pyTruncate (value : String) (maxLength : Nat) : String :=
  if value.length > maxLength then pyTake value maxLength ++ "…" else value

/-! ## models.py -/

/-- `ToolUsageSummary` from `models.py`. -/
structure ToolUsageSummary where
  item_id : String
  type : String
  status : String
  detail : Option String := none
deriving DecidableEq

/-- `EntitlementResult` from `models.py`. -/
structure EntitlementResult where
  upn : String
  oid : String
  rep_code : Option String := none
  role : Option String := none
  is_authorized : Bool := true
deriving DecidableEq

/-- `AgentRequest` from `models.py`. -/
structure AgentRequest where
  question : String
  conversation_id : Option String := none
deriving DecidableEq

/-- `AgentResponse` from `models.py`; `none` fields are omitted from the
serialized envelope (`response_model_exclude_none=True`). -/
structure AgentResponse where
  status : String
  correlation_id : String
  conversation_id : Option String := none
  response_id : Option String := none
  assistant_answer : Option String := none
  tool_evidence : Option (List ToolUsageSummary) := none
  entitlement : Option EntitlementResult := none
  error : Option String := none
deriving DecidableEq

/-! ## foundry_agent_service.py

`run_agent` performs two HTTP calls (`_create_conversation` and
`_call_responses_api`).  Their outcomes are supplied by a `FoundryEnv`:
an HTTP error status (raised as `httpx.HTTPStatusError`), a timeout
(`httpx.TimeoutException`), or the parsed JSON body. -/

/-- One `output[]` content block of a v2 Responses API reply. -/
structure ContentBlock where
  type : Option String := none
  text : Option String := none
deriving DecidableEq

/-- One `output[]` item of a v2 Responses API reply.  `dump` stands for
`json.dumps(item)`, which the code only truncates into `detail`. -/
structure OutputItem where
  type : Option String := none
  role : Option String := none
  content : List ContentBlock := []
  id : Option String := none
  status : Option String := none
  dump : String := ""
deriving DecidableEq

/-- The JSON body returned by `POST /openai/responses`.  `errorJson`
stands for `json.dumps(response_json.get("error"))`. -/
structure ResponsesJson where
  id : Option String := none
  status : Option String := none
  errorJson : String := "null"
  output : List OutputItem := []
deriving DecidableEq

/-- Failure mode of a Foundry HTTP call. -/
inductive FoundryErr where
  | httpStatus (code : Nat) (text : String)
  | timeout
deriving DecidableEq

/-- `FoundrySettings` from `config.py` (the fields `run_agent` reads). -/
structure FoundrySettings where
  response_timeout_seconds : Nat := 180
deriving DecidableEq

/-- Outcomes of the two HTTP calls `run_agent` can make. -/
structure FoundryEnv where
  createConv : Except FoundryErr String
  callResponses : Except FoundryErr ResponsesJson

/-- The texts of the `output_text` blocks of one assistant message
(`_parse_output`, inner loop: only truthy texts are collected). -/
def collectTexts (content : List ContentBlock) : List String :=
  content.filterMap (fun b =>
    if b.type == some "output_text" then
      match b.text with
      | some t => if t ≠ "" then some t else none
      | none => none
    else none)

/-- The `ToolUsageSummary` built for a tool-call output item. -/
def mkToolSummary (itemType : String) (item : OutputItem) : ToolUsageSummary :=
  { item_id := item.id.getD "unknown"
    type := itemType
    status := item.status.getD "detected"
    detail := some (pyTruncate item.dump 500) }

/-- One step of the `_parse_output` loop over `output[]`. -/
def parseOutputStep (acc : Option String × List ToolUsageSummary) (item : OutputItem) :
    Option String × List ToolUsageSummary :=
  let (answer, ev) := acc
  match item.type with
  | some itemType =>
    if itemType = "message" then
      if item.role == some "assistant" then
        let texts := collectTexts item.content
        if texts ≠ [] then (some (pyJoin "\n" texts), ev) else (answer, ev)
      else (answer, ev)
    else if itemType = "fabric_dataagent_preview_call" ∨ itemType = "tool_call" ∨
        itemType = "function_call" then
      (answer, ev ++ [mkToolSummary itemType item])
    else if itemType ≠ "" ∧ pyContains (pyLower itemType) "fabric" then
      (answer, ev ++ [mkToolSummary itemType item])
    else (answer, ev)
  | none => (answer, ev)

/-- `FoundryAgentService._parse_output`: extract the assistant answer and
the tool-usage evidence from the response output array. -/
def parse_output (rj : ResponsesJson) : Option String × List ToolUsageSummary :=
  if rj.output = [] then (none, [])
  else rj.output.foldl parseOutputStep (none, [])

/-- The `AgentResponse` built in the two `except` branches of `run_agent`
(HTTP error and timeout). -/
def foundryErrResponse (s : FoundrySettings) (e : FoundryErr) (correlation_id : String)
    (conversation_id : Option String) : AgentResponse :=
  match e with
  | .httpStatus code text =>
    { status := "error"
      correlation_id := correlation_id
      conversation_id := conversation_id
      error := some ("Foundry API error: " ++ toString code ++ " — " ++ pyTake text 500) }
  | .timeout =>
    { status := "timeout"
      correlation_id := correlation_id
      conversation_id := conversation_id
      error := some ("Foundry API timed out after " ++
        toString s.response_timeout_seconds ++ "s") }

/-- `run_agent` after the conversation id has been resolved (steps 2–3). -/
def run_agent_after_conv (s : FoundrySettings) (env : FoundryEnv) (conversation_id : String)
    (correlation_id : String) : AgentResponse :=
  match env.callResponses with
  | .error e => foundryErrResponse s e correlation_id (some conversation_id)
  | .ok rj =>
    let response_id := rj.id
    let status := rj.status.getD "unknown"
    if status ≠ "completed" then
      { status := status
        correlation_id := correlation_id
        conversation_id := some conversation_id
        response_id := response_id
        error := some ("Agent response ended with status: " ++ status ++ ". " ++ rj.errorJson) }
    else
      let (answer, toolEvidence) := parse_output rj
      { status := "completed"
        correlation_id := correlation_id
        conversation_id := some conversation_id
        response_id := response_id
        assistant_answer := answer
        tool_evidence := if toolEvidence ≠ [] then some toolEvidence else none }

/-- `FoundryAgentService.run_agent`: create a conversation when none was
supplied, call the Responses API (its question/tool payload is absorbed
into `env.callResponses`), and fold every failure into the
`status`/`error` fields of a well-formed `AgentResponse`. -/
def run_agent (s : FoundrySettings) (env : FoundryEnv) (_question : String)
    (conversation_id : Option String) (correlation_id : String) : AgentResponse :=
  match conversation_id with
  | none =>
    match env.createConv with
    | .error e => foundryErrResponse s e correlation_id none
    | .ok cid => run_agent_after_conv s env cid correlation_id
  | some cid => run_agent_after_conv s env cid correlation_id

/-! ## auth.py — OBO exchange -/

/-- The MSAL result dict of `acquire_token_on_behalf_of`, restricted to
the keys `exchange_token` reads.  An absent key is `none`. -/
structure OboResult where
  access_token : Option String := none
  error : Option String := none
  error_description : Option String := none
deriving DecidableEq

/-- The `HTTPException` raised by `OboTokenService.exchange_token`:
`status_code` plus the `detail` dict `\x7b"status": …, "error": …\x7d`. -/
structure OboError where
  status_code : Nat
  status : String
  error : String
deriving DecidableEq

/-- `OboTokenService.exchange_token`: return the access token when MSAL
produced one; otherwise classify the failure by the provider error code. -/
def exchange_token (result : OboResult) : Except OboError String :=
  match result.access_token with
  | some tok => .ok tok
  | none =>
    let error := result.error.getD "unknown_error"
    let error_description := result.error_description.getD "No description"
    if error = "interaction_required" then
      .error
        { status_code := 401
          status := "obo_challenge"
          error := "Token acquisition requires user interaction (consent or re-auth). " ++
            error_description }
    else
      .error
        { status_code := 500
          status := "obo_error"
          error := "Failed to acquire OBO token: " ++ error ++ " — " ++ error_description }

/-! ## auth.py / main.py — token validation on the SPA path -/

/-- One JWKS entry; only the `kid` field is ever read. -/
structure Jwk where
  kid : String
deriving DecidableEq

/-- The cached JWKS document (`_jwks_cache`). -/
structure Jwks where
  keys : List Jwk
deriving DecidableEq

/-- A bearer credential as the validator sees it: its compact
serialization `raw`, the unverified header fields `kid`/`alg`, the `kid`
of the key that actually produced its signature (`none` for a garbage
signature), its expiry state, and its payload claim set. -/
structure Token where
  raw : String
  kid : Option String := none
  alg : Option String := none
  signedBy : Option String := none
  expired : Bool := false
  claims : PyDict := []
deriving DecidableEq

/-- `AzureAdSettings` from `config.py` (`instance` is a Lean keyword, so
the field is `instance_`). -/
structure AzureAdSettings where
  instance_ : String := "https://login.microsoftonline.com/"
  tenant_id : String := ""
  client_id : String := ""
  client_secret : String := ""
  audience : String := ""
deriving DecidableEq

/-- `TokenClaims` from `auth.py`: claim extraction with Python `or`
fallbacks (empty strings fall through). -/
structure TokenClaims where
  raw_claims : PyDict
  upn : String
  oid : String
  display_name : String
deriving DecidableEq

/-- `TokenClaims.__init__`. -/
def TokenClaims.ofClaims (claims : PyDict) : TokenClaims :=
  let upn := pyOrStr (dget claims "preferred_username") (pyOrStr (dget claims "upn") "unknown")
  let oid := pyOrStr
    (dget claims "http://schemas.microsoft.com/identity/claims/objectidentifier")
    (pyOrStr (dget claims "oid") "unknown")
  { raw_claims := claims
    upn := upn
    oid := oid
    display_name := pyOrStr (dget claims "name") upn }

/-- The key-selection loop shared by `validate_token` and
`get_current_user`: the first JWKS key whose `kid` equals the declared
header `kid`. -/
def jose_find_key (jwks : Jwks) (headerKid : Option String) : Option Jwk :=
  jwks.keys.find? (fun k => headerKid == some k.kid)

/-- `jose.jwt.decode(token, key, algorithms=["RS256"], audience=…,
options=\x7b"verify_at_hash": False, "verify_iss": False\x7d)`: signature
against the given key, algorithm allow-list, expiry, and audience
membership; the issuer is not checked here.  Errors are `JWTError`s. -/
def jwt_decode_rs256 (tok : Token) (key : Jwk) (audience : List String) :
    Except String PyDict :=
  if tok.alg ≠ some "RS256" then .error "The specified alg value is not allowed"
  else if tok.signedBy ≠ some key.kid then .error "Signature verification failed."
  else if tok.expired then .error "Signature has expired."
  else
    match dget tok.claims "aud" with
    | none => .error "Invalid audience"
    | some aud => if audience.contains aud then .ok tok.claims else .error "Invalid audience"

/-- An `HTTPException` with a plain-string detail. -/
structure HttpErr where
  status_code : Nat
  detail : String
deriving DecidableEq

/-- The issuer allow-list hard-coded in `main.py:get_current_user`
(v2 and v1 only). -/
def spa_valid_issuers (s : AzureAdSettings) : List String :=
  ["https://login.microsoftonline.com/" ++ s.tenant_id ++ "/v2.0",
   "https://sts.windows.net/" ++ s.tenant_id ++ "/"]

/-- The issuer allow-list of `auth.py:validate_token` (v2, v1, and the
bare tenant authority) — the three-variant list the spec describes. -/
def auth_valid_issuers (s : AzureAdSettings) : List String :=
  [s.instance_ ++ s.tenant_id ++ "/v2.0",
   "https://sts.windows.net/" ++ s.tenant_id ++ "/",
   s.instance_ ++ s.tenant_id]

/-- The audience allow-list of `auth.py:validate_token` (declared
audience, raw client id, and `api://` client id) — the three-variant
list the spec describes. -/
def auth_valid_audiences (s : AzureAdSettings) : List String :=
  [s.audience, s.client_id, "api://" ++ s.client_id]

/-- `main.py:get_current_user`, after the `Bearer ` header prefix has
been stripped: find the signing key, decode with the single configured
audience, check the issuer against the two-variant list, and stash the
raw credential under `_raw_token`.  The empty raw string stands for a
compact serialization that `jose` cannot even parse a header from
(`get_unverified_header` raises, caught as a 401). -/
def get_current_user (jwks : Jwks) (s : AzureAdSettings) (tok : Token) :
    Except HttpErr TokenClaims :=
  if tok.raw = "" then .error ⟨401, "Invalid token: Not enough segments"⟩
  else
    match jose_find_key jwks tok.kid with
    | none => .error ⟨401, "Token signing key not found"⟩
    | some key =>
      match jwt_decode_rs256 tok key [s.audience] with
      | .error e => .error ⟨401, "Invalid token: " ++ e⟩
      | .ok claims =>
        if (spa_valid_issuers s).contains ((dget claims "iss").getD "") then
          .ok (TokenClaims.ofClaims (("_raw_token", tok.raw) :: claims))
        else .error ⟨401, "Invalid token: Invalid issuer"⟩

/-! ## entitlement_service.py -/

/-- One entry of the configured user list, with the dict-get defaults of
`StubEntitlementService.__init__` baked in. -/
structure EntUser where
  upn : String := ""
  rep_code : String := ""
  role : String := "Advisor"
deriving DecidableEq

/-- `StubEntitlementService.__init__`: build the `_user_map` keyed by
lower-cased UPN, skipping entries without a UPN or rep code.  Prepending
makes later entries win on lookup, like Python dict overwrite. -/
def build_user_map (users : List EntUser) : List (String × String × String) :=
  users.foldl
    (fun m u => if u.upn ≠ "" ∧ u.rep_code ≠ "" then (pyLower u.upn, u.rep_code, u.role) :: m else m)
    []

/-- Lookup in the user map (first match). -/
def user_map_get (m : List (String × String × String)) (k : String) :
    Option (String × String) :=
  (m.find? (fun p => p.1 == k)).map (·.2)

/-- `StubEntitlementService.get_entitlement`: case-insensitive lookup of
the UPN; unknown users are still authorized, with no rep code or role. -/
def stub_get_entitlement (users : List EntUser) (upn oid : String) : EntitlementResult :=
  match user_map_get (build_user_map users) (pyLower upn) with
  | some (rep_code, role) =>
    { upn := upn, oid := oid, rep_code := some rep_code, role := some role,
      is_authorized := true }
  | none =>
    { upn := upn, oid := oid, rep_code := none, role := none, is_authorized := true }

/-! ## main.py — `post_agent` orchestration -/

/-- The exceptions `post_agent` can surface: a 500 when the validated
identity carries no raw token, or the re-raised `HTTPException` of the
OBO exchange. -/
inductive SpaError where
  | rawTokenMissing
  | oboFailure (e : OboError)
deriving DecidableEq

/-- Everything external to `post_agent`: the entitlement lookup outcome
(`.error` = the service raised), the MSAL OBO result, and the Foundry
call outcomes. -/
structure SpaEnv where
  entitlement : Except Unit EntitlementResult
  obo : OboResult
  foundrySettings : FoundrySettings
  foundry : FoundryEnv

/-- Step 2 of `post_agent`: read `_raw_token` back out of the validated
claims; an empty or absent value is the 500 "raw token not available"
branch. -/
def post_agent_raw_for_obo (user : TokenClaims) : Except SpaError String :=
  let raw_token := (dget user.raw_claims "_raw_token").getD ""
  if raw_token = "" then .error .rawTokenMissing else .ok raw_token

/-- The default entitlement substituted when the lookup raises
(`EntitlementResult(upn=upn, oid=oid, is_authorized=True)`). -/
def default_entitlement (upn oid : String) : EntitlementResult :=
  { upn := upn, oid := oid, is_authorized := true }

/-- `main.py:post_agent` after `get_current_user` succeeded: advisory
entitlement lookup (non-fatal), raw-token recovery, OBO exchange, agent
invocation, and attachment of the entitlement to the response. -/
def post_agent (env : SpaEnv) (req : AgentRequest) (user : TokenClaims)
    (correlation_id : String) : Except SpaError AgentResponse :=
  let entitlement :=
    match env.entitlement with
    | .ok e => e
    | .error _ => default_entitlement user.upn user.oid
  match post_agent_raw_for_obo user with
  | .error e => .error e
  | .ok _raw_token =>
    match exchange_token env.obo with
    | .error e => .error (.oboFailure e)
    | .ok _obo_token =>
      let agent_response :=
        run_agent env.foundrySettings env.foundry req.question req.conversation_id
          correlation_id
      .ok { agent_response with entitlement := some entitlement }

/-! ## bot_handler.py

The handler is embedded as a function of an environment (the outcomes of
every external interaction) and the parsed inbound activity, returning
the list of side effects it performed together with either the HTTP
status of the transport response or the message of an uncaught Python
exception (`RuntimeError` from `_get_bot_token`). -/

/-- A `from`/`recipient`/`membersAdded` account object; fields read with
`.get` are `Option`. -/
structure Account where
  id : Option String := none
  name : Option String := none
deriving DecidableEq

/-- A `conversation` object. -/
structure ConvRef where
  id : Option String := none
deriving DecidableEq

/-- The inbound Bot Framework activity, with the dict-get defaults the
handler applies baked into the field types: `type`, `serviceUrl` and
`channelId` default to `""`, object-valued fields keep `none` for the
`\x7b\x7d` default, `text` and `id` keep `none`. -/
structure Activity where
  type : String := ""
  text : Option String := none
  fromAcc : Option Account := none
  recipient : Option Account := none
  conversation : Option ConvRef := none
  id : Option String := none
  serviceUrl : String := ""
  channelId : String := ""
  membersAdded : List Account := []
deriving DecidableEq

/-- The reply envelope `_create_reply` builds (`from`/`recipient` hold the
inbound activity objects, `none` standing for the `\x7b\x7d` default). -/
structure ReplyActivity where
  type : String
  text : String
  fromAcc : Option Account
  recipient : Option Account
  conversation : Option ConvRef
  replyToId : Option String
deriving DecidableEq

/-- `bot_handler._create_reply`. -/
def create_reply (activity : Activity) (text : String) : ReplyActivity :=
  { type := "message"
    text := text
    fromAcc := activity.recipient
    recipient := activity.fromAcc
    conversation := activity.conversation
    replyToId := activity.id }

/-- `BotSettings` from `config.py`. -/
structure BotSettings where
  microsoft_app_id : String := ""
  microsoft_app_password : String := ""
  microsoft_app_tenant_id : String := ""
  microsoft_app_type : String := "SingleTenant"
  oauth_connection_name : String := ""
deriving DecidableEq

/-- The observable side effects of one bot turn, in order. -/
inductive BotEffect where
  | tokenLookup (userId channelId connectionName : String) (magicCode : Option String)
  | signInLinkFetch (connectionName : String)
  | oboExchange
  | entitlementLookup (upn oid : String)
  | agentCall (question : String)
  | sentReply (text : String)
  | sentCard (link : String)
  | sentTyping
deriving DecidableEq

/-- Outcomes of every external interaction one bot turn can perform.
`botToken` is the result of `BotConnectorClient._get_bot_token` (an
`.error` is the `RuntimeError` it raises); the token-service responses
are given as functions of the magic code passed along. -/
structure BotEnv where
  botToken : Except String String
  getTokenStatus : Option String → Nat
  getTokenField : Option String → Option String
  signInStatus : Nat
  signInLinkField : Option String
  obo : OboResult
  userTokenClaims : Option PyDict
  entitlementUsers : List EntUser
  foundrySettings : FoundrySettings
  foundry : FoundryEnv

/-- The result of a bot step: the effects it performed, and either a
value or the message of an escaping exception. -/
abbrev BotStep (α : Type) := List BotEffect × Except String α

/-- `BotConnectorClient.send_text_reply`: build the reply and, when the
activity carries a `serviceUrl`, authenticate and POST it (delivery
failures are logged and swallowed; a token-acquisition failure raises). -/
def send_text_reply (env : BotEnv) (body : Activity) (text : String) : BotStep Unit :=
  if body.serviceUrl ≠ "" then
    match env.botToken with
    | .error e => ([], .error e)
    | .ok _ => ([.sentReply text], .ok ())
  else ([], .ok ())

/-- `BotConnectorClient.send_typing`. -/
def send_typing (env : BotEnv) (body : Activity) : BotStep Unit :=
  if body.serviceUrl ≠ "" then
    match env.botToken with
    | .error e => ([], .error e)
    | .ok _ => ([.sentTyping], .ok ())
  else ([], .ok ())

/-- `bot_handler._send_sign_in_card`. -/
def send_sign_in_card (env : BotEnv) (body : Activity) (sign_in_link : String) :
    BotStep Unit :=
  if body.serviceUrl ≠ "" then
    match env.botToken with
    | .error e => ([], .error e)
    | .ok _ => ([.sentCard sign_in_link], .ok ())
  else ([], .ok ())

/-- `BotTokenClient.get_user_token`: authenticate, then GET the token
store; 200 yields the `token` field, 404 is absent, anything else is
logged and treated as absent. -/
def get_user_token (env : BotEnv) (settings : BotSettings) (body : Activity)
    (magic_code : Option String) : BotStep (Option String) :=
  let user_id := (body.fromAcc.bind Account.id).getD "unknown"
  match env.botToken with
  | .error e => ([], .error e)
  | .ok _ =>
    let eff := [BotEffect.tokenLookup user_id body.channelId
      settings.oauth_connection_name magic_code]
    if env.getTokenStatus magic_code = 200 then (eff, .ok (env.getTokenField magic_code))
    else (eff, .ok none)

/-- `BotTokenClient.get_sign_in_resource`: authenticate, then GET the
sign-in link; absent on non-200. -/
def get_sign_in_resource (env : BotEnv) (settings : BotSettings) :
    BotStep (Option String) :=
  match env.botToken with
  | .error e => ([], .error e)
  | .ok _ =>
    let eff := [BotEffect.signInLinkFetch settings.oauth_connection_name]
    if env.signInStatus = 200 then (eff, .ok env.signInLinkField)
    else (eff, .ok none)

/-- `str(ex)` of the `HTTPException` raised by the OBO exchange:
starlette renders it as status code and detail, so the detail text (with
its "consent or re-auth" wording) is part of the string. -/
def oboExceptionStr (e : OboError) : String :=
  toString e.status_code ++ ": status: " ++ e.status ++ ", error: " ++ e.error

/-- `bot_handler._format_bot_response`. -/
def format_bot_response (r : AgentResponse) : String :=
  if r.status ≠ "completed" ∨ ¬ pyTruthy r.assistant_answer then
    pyOrStr r.error "I wasn\x27t able to get an answer. Please try rephrasing your question."
  else
    let text := r.assistant_answer.getD ""
    if r.tool_evidence.getD [] ≠ [] then
      text ++ "\n\n---\n*Data retrieved via Fabric using your identity.*"
    else text

/-- The `except` handler of the message branch: a consent-flavoured
exception text asks the user to sign out and back in, anything else gets
the generic apology; either way the reply is attempted again. -/
def bot_except_handler (env : BotEnv) (body : Activity) (exStr : String) : BotStep Nat :=
  let text :=
    if pyContains (pyLower exStr) "consent" then
      "I need additional permissions to access your data. " ++
      "Please sign out and sign back in using the command \x27signout\x27."
    else
      "Sorry, I encountered an error processing your request. Please try again."
  match send_text_reply env body text with
  | (es, .error e) => (es, .error e)
  | (es, .ok _) => (es, .ok 200)

/-- Steps 3–6 of the message branch (the `try` block): OBO exchange,
best-effort unverified claim extraction, entitlement lookup, agent call,
and reply delivery; every exception inside is routed to the handler. -/
def bot_try_block (env : BotEnv) (body : Activity) (question : String)
    (correlation_id : String) : BotStep Nat :=
  match exchange_token env.obo with
  | .error oboErr =>
    let (es, r) := bot_except_handler env body (oboExceptionStr oboErr)
    ([BotEffect.oboExchange] ++ es, r)
  | .ok _obo_token =>
    let upn :=
      match env.userTokenClaims with
      | none => ""
      | some claims =>
        match dget claims "upn" with
        | some v => v
        | none => (dget claims "preferred_username").getD ""
    let oid :=
      match env.userTokenClaims with
      | none => ""
      | some claims => (dget claims "oid").getD ""
    let _entitlement := stub_get_entitlement env.entitlementUsers upn oid
    let agent_response :=
      run_agent env.foundrySettings env.foundry question none correlation_id
    let reply_text := format_bot_response agent_response
    let pre := [BotEffect.oboExchange, BotEffect.entitlementLookup upn oid,
      BotEffect.agentCall question]
    match send_text_reply env body reply_text with
    | (es, .error e) =>
      let (es2, r) := bot_except_handler env body e
      (pre ++ es ++ es2, r)
    | (es, .ok _) => (pre ++ es, .ok 200)

/-- The `activity_type == "message"` branch of `handle_bot_message`. -/
def handle_message_activity (env : BotEnv) (settings : BotSettings) (body : Activity)
    (correlation_id : String) : BotStep Nat :=
  let question := pyStrip (body.text.getD "")
  if question = "" then
    match send_text_reply env body "Please send me a question about your data." with
    | (es, .error e) => (es, .error e)
    | (es, .ok _) => (es, .ok 200)
  else
    let magic_code :=
      if question.length = 6 ∧ question.data.all Char.isDigit then some question else none
    match get_user_token env settings body magic_code with
    | (es, .error e) => (es, .error e)
    | (es, .ok user_token) =>
      if ¬ pyTruthy user_token then
        match get_sign_in_resource env settings with
        | (es2, .error e) => (es ++ es2, .error e)
        | (es2, .ok sign_in_link) =>
          if pyTruthy sign_in_link then
            match send_sign_in_card env body (sign_in_link.getD "") with
            | (es3, .error e) => (es ++ es2 ++ es3, .error e)
            | (es3, .ok _) => (es ++ es2 ++ es3, .ok 200)
          else
            match send_text_reply env body
              "Authentication is not configured. Please contact your administrator." with
            | (es3, .error e) => (es ++ es2 ++ es3, .error e)
            | (es3, .ok _) => (es ++ es2 ++ es3, .ok 200)
      else if magic_code.isSome then
        match send_text_reply env body
          "You\x27re signed in! Please type your question now." with
        | (es2, .error e) => (es ++ es2, .error e)
        | (es2, .ok _) => (es ++ es2, .ok 200)
      else
        match send_typing env body with
        | (es2, .error e) => (es ++ es2, .error e)
        | (es2, .ok _) =>
          let (es3, r) := bot_try_block env body question correlation_id
          (es ++ es2 ++ es3, r)

/-- The greeting text of the `conversationUpdate` branch. -/
def bot_greeting : String :=
  "Hello! I\x27m the Fabric Data Assistant. Ask me questions about your data " ++
  "and I\x27ll query it using your identity so you only see what you\x27re authorized for.\n\n" ++
  "Try: *\"Show me all my accounts and their balances.\"*"

/-- The member loop of the `conversationUpdate` branch: greet every added
member other than the bot itself. -/
def greet_members (env : BotEnv) (body : Activity) (recipient_id : String) :
    List Account → BotStep Nat
  | [] => ([], .ok 200)
  | member :: rest =>
    if member.id ≠ some recipient_id then
      match send_text_reply env body bot_greeting with
      | (es, .error e) => (es, .error e)
      | (es, .ok _) =>
        match greet_members env body recipient_id rest with
        | (es2, r) => (es ++ es2, r)
    else greet_members env body recipient_id rest

/-- The `activity_type == "conversationUpdate"` branch. -/
def handle_conversation_update (env : BotEnv) (body : Activity) : BotStep Nat :=
  let recipient_id := (body.recipient.bind Account.id).getD ""
  greet_members env body recipient_id body.membersAdded

/-- `bot_handler.handle_bot_message`: `none` stands for a request body
that fails JSON parsing (HTTP 400); otherwise dispatch on the activity
type, ending in the unconditional `Response(status_code=200)` — unless a
`RuntimeError` from `_get_bot_token` escapes (the `.error` outcome). -/
def handle_bot_message (env : BotEnv) (settings : BotSettings) (correlation_id : String)
    (body? : Option Activity) : BotStep Nat :=
  match body? with
  | none => ([], .ok 400)
  | some body =>
    if body.type = "message" then handle_message_activity env settings body correlation_id
    else if body.type = "conversationUpdate" then handle_conversation_update env body
    else ([], .ok 200)

/-! ## Theorems -/

/-- Claim C8: the reply envelope built from an inbound activity has the
inbound recipient as its sender, the inbound sender as its recipient,
the same conversation, and the inbound activity identifier as its
reply-target. -/
theorem reply_envelope_swaps (a : Activity) (text : String) :
    (create_reply a text).fromAcc = a.recipient ∧
    (create_reply a text).recipient = a.fromAcc ∧
    (create_reply a text).conversation = a.conversation ∧
    (create_reply a text).replyToId = a.id :=
  ⟨rfl, rfl, rfl, rfl⟩

/-- Claim C4: an OBO result with an access token returns that token; one
without, with error code `interaction_required`, fails 401/`obo_challenge`
carrying the provider description; any other error code fails
500/`obo_error` carrying code and description. -/
theorem obo_exchange_outcomes (r : OboResult) :
    (∀ t, r.access_token = some t → exchange_token r = .ok t) ∧
    (r.access_token = none → r.error = some "interaction_required" →
      exchange_token r = .error
        { status_code := 401
          status := "obo_challenge"
          error := "Token acquisition requires user interaction (consent or re-auth). " ++
            r.error_description.getD "No description" }) ∧
    (r.access_token = none → r.error ≠ some "interaction_required" →
      exchange_token r = .error
        { status_code := 500
          status := "obo_error"
          error := "Failed to acquire OBO token: " ++ r.error.getD "unknown_error" ++
            " — " ++ r.error_description.getD "No description" }) := by
  refine ⟨?_, ?_, ?_⟩
  · intro t ht
    simp [exchange_token, ht]
  · intro h1 h2
    simp [exchange_token, h1, h2]
  · intro h1 h2
    cases he : r.error with
    | none => simp [exchange_token, h1, he]
    | some e =>
      have hne : e ≠ "interaction_required" := by
        intro hh
        exact h2 (by rw [he, hh])
      simp [exchange_token, h1, he, hne]

/-- Witness for C4 at a concrete consent-required OBO result. -/
theorem obo_exchange_outcomes_witness :
    exchange_token
      { access_token := none
        error := some "interaction_required"
        error_description := some "AADSTS65001: user or admin has not consented" } =
    .error
      { status_code := 401
        status := "obo_challenge"
        error := "Token acquisition requires user interaction (consent or re-auth). " ++
          "AADSTS65001: user or admin has not consented" } :=
  (obo_exchange_outcomes _).2.1 rfl rfl

/-- Claim C10: the stub entitlement lookup always authorizes and echoes
its inputs; the rep code and role come from the lower-cased-UPN user map
(so unmatched users get neither), and the result depends on the UPN only
through its lower-casing. -/
theorem stub_entitlement_behavior (users : List EntUser) (upn upn2 oid oid2 : String)
    (hcase : pyLower upn = pyLower upn2) :
    (stub_get_entitlement users upn oid).is_authorized = true ∧
    (stub_get_entitlement users upn oid).upn = upn ∧
    (stub_get_entitlement users upn oid).oid = oid ∧
    (stub_get_entitlement users upn oid).rep_code =
      (user_map_get (build_user_map users) (pyLower upn)).map Prod.fst ∧
    (stub_get_entitlement users upn oid).role =
      (user_map_get (build_user_map users) (pyLower upn)).map Prod.snd ∧
    (stub_get_entitlement users upn oid).rep_code =
      (stub_get_entitlement users upn2 oid2).rep_code ∧
    (stub_get_entitlement users upn oid).role =
      (stub_get_entitlement users upn2 oid2).role := by
  unfold stub_get_entitlement
  rw [hcase]
  cases h : user_map_get (build_user_map users) (pyLower upn2) with
  | none => simp [h]
  | some v => simp [h]

/-- A configured entitlement user for concrete runs. -/
def aliceUser : EntUser :=
  { upn := "Alice@Contoso.com", rep_code := "REP001", role := "Advisor" }

/-- Witness for C10: a configured UPN matches an incoming UPN of a
different casing, and both casings agree on the result. -/
theorem stub_entitlement_behavior_witness :
    (stub_get_entitlement [aliceUser] "alice@CONTOSO.COM" "oid-1").is_authorized = true ∧
    (stub_get_entitlement [aliceUser] "alice@CONTOSO.COM" "oid-1").rep_code =
    (stub_get_entitlement [aliceUser] "ALICE@contoso.com" "oid-2").rep_code :=
  ⟨(stub_entitlement_behavior [aliceUser]
      "alice@CONTOSO.COM" "ALICE@contoso.com" "oid-1" "oid-2" (by decide)).1,
   (stub_entitlement_behavior [aliceUser]
      "alice@CONTOSO.COM" "ALICE@contoso.com" "oid-1" "oid-2" (by decide)).2.2.2.2.2.1⟩

/-- The failure-branch responses of `run_agent` never carry an answer. -/
theorem foundryErrResponse_no_answer (s : FoundrySettings) (e : FoundryErr)
    (correlation_id : String) (conversation_id : Option String) :
    (foundryErrResponse s e correlation_id conversation_id).assistant_answer = none := by
  cases e <;> rfl

/-- After the conversation step, a non-`completed` status means no
answer. -/
theorem run_agent_after_conv_no_answer (s : FoundrySettings) (env : FoundryEnv)
    (cid correlation_id : String)
    (h : (run_agent_after_conv s env cid correlation_id).status ≠ "completed") :
    (run_agent_after_conv s env cid correlation_id).assistant_answer = none := by
  unfold run_agent_after_conv at h ⊢
  cases hc : env.callResponses with
  | error e => simp only [hc]; exact foundryErrResponse_no_answer s e correlation_id _
  | ok rj =>
    simp only [hc] at h ⊢
    by_cases hs : rj.status.getD "unknown" ≠ "completed"
    · simp only [if_pos hs]
    · rcases hpo : parse_output rj with ⟨answer, toolEvidence⟩
      simp only [if_neg hs, hpo] at h
      exact absurd rfl h

/-- Claim C1: whenever `run_agent` produces a result whose status is not
`completed` — HTTP error, timeout, or a non-completed terminal status
from the Responses API — the assistant answer field is absent. -/
theorem run_agent_non_completed_no_answer (s : FoundrySettings) (env : FoundryEnv)
    (question : String) (conversation_id : Option String) (correlation_id : String)
    (h : (run_agent s env question conversation_id correlation_id).status ≠ "completed") :
    (run_agent s env question conversation_id correlation_id).assistant_answer = none := by
  unfold run_agent at h ⊢
  cases conversation_id with
  | some cid => exact run_agent_after_conv_no_answer s env cid correlation_id h
  | none =>
    cases hc : env.createConv with
    | error e => simp only [hc]; exact foundryErrResponse_no_answer s e correlation_id none
    | ok cid =>
      simp only [hc] at h ⊢
      exact run_agent_after_conv_no_answer s env cid correlation_id h

/-- Witness for C1 at a concrete timed-out agent call. -/
theorem run_agent_non_completed_no_answer_witness :
    (run_agent { response_timeout_seconds := 180 }
      { createConv := .ok "conv_1", callResponses := .error .timeout }
      "Show me my accounts" none "corr1").assistant_answer = none :=
  run_agent_non_completed_no_answer _ _ _ _ _ (by decide)

/-- The HTTP status of the error outcome of a validation run. -/
def errStatus {α : Type} : Except HttpErr α → Option Nat
  | .error e => some e.status_code
  | .ok _ => none

/-- Concrete Azure AD settings for the SPA-path runs. -/
def spaSettings : AzureAdSettings :=
  { instance_ := "https://login.microsoftonline.com/"
    tenant_id := "contoso-tenant"
    client_id := "client-guid"
    client_secret := "secret"
    audience := "api://fabricobo-api" }

/-- A concrete cached signing-key set with one key. -/
def spaJwks : Jwks := { keys := [{ kid := "k1" }] }

/-- A concrete claim set of a valid v2 token for `spaSettings`. -/
def validClaims : PyDict :=
  [("aud", "api://fabricobo-api"),
   ("iss", "https://login.microsoftonline.com/contoso-tenant/v2.0"),
   ("preferred_username", "alice@contoso.com"),
   ("oid", "oid-alice"),
   ("name", "Alice")]

/-- A concrete token that `get_current_user` accepts. -/
def tokOk : Token :=
  { raw := "hdr.payload.sig"
    kid := some "k1"
    alg := some "RS256"
    signedBy := some "k1"
    expired := false
    claims := validClaims }

/-- Claim C5: a credential whose declared key identifier matches no key
of the cached signing-key set is rejected with the 401 "Token signing
key not found", regardless of its other claims. -/
theorem unknown_signing_kid_rejected (jwks : Jwks) (s : AzureAdSettings) (tok : Token)
    (hraw : tok.raw ≠ "")
    (hk : ∀ k ∈ jwks.keys, tok.kid ≠ some k.kid) :
    get_current_user jwks s tok = .error ⟨401, "Token signing key not found"⟩ := by
  have hfind : jose_find_key jwks tok.kid = none := by
    unfold jose_find_key
    apply List.find?_eq_none.mpr
    intro k hkmem
    simpa using hk k hkmem
  simp [get_current_user, hraw, hfind]

/-- Witness for C5: a token signed with `kZ`, otherwise fully valid,
against a key set holding only `k1`. -/
theorem unknown_signing_kid_rejected_witness :
    get_current_user spaJwks spaSettings
      { raw := "hdr.payload.sig", kid := some "kZ", alg := some "RS256",
        signedBy := some "kZ", expired := false, claims := validClaims } =
    .error ⟨401, "Token signing key not found"⟩ :=
  unknown_signing_kid_rejected _ _ _ (by decide) (by decide)

/-- A token for `spaSettings` whose audience is the raw client id — one
of the three audience variants of `auth_valid_audiences` — and whose
issuer is the v2 issuer; its signature, algorithm, expiry and key all
check out. -/
def tokClientIdAudience : Token :=
  { raw := "hdr.payload.sig"
    kid := some "k1"
    alg := some "RS256"
    signedBy := some "k1"
    expired := false
    claims := [("aud", "client-guid"),
      ("iss", "https://login.microsoftonline.com/contoso-tenant/v2.0"),
      ("preferred_username", "alice@contoso.com")] }

/-- A token for `spaSettings` whose issuer is the bare tenant authority —
one of the three issuer variants of `auth_valid_issuers` — and whose
audience is the declared API audience; everything else checks out. -/
def tokBareAuthorityIssuer : Token :=
  { raw := "hdr.payload.sig"
    kid := some "k1"
    alg := some "RS256"
    signedBy := some "k1"
    expired := false
    claims := [("aud", "api://fabricobo-api"),
      ("iss", "https://login.microsoftonline.com/contoso-tenant"),
      ("preferred_username", "alice@contoso.com")] }

/-- Counterexample to claim C2: on the SPA request path the validator is
`main.py:get_current_user`, not `auth.py:validate_token`, and it rejects
two combinations the claimed three-issuer/three-audience rule accepts —
an otherwise-valid token whose audience is the raw client identifier,
and an otherwise-valid token whose issuer is the bare tenant-authority
URL. -/
theorem spa_validation_rejects_claimed_variants :
    ("client-guid" ∈ auth_valid_audiences spaSettings ∧
     "https://login.microsoftonline.com/contoso-tenant/v2.0" ∈ auth_valid_issuers spaSettings ∧
     exOk (get_current_user spaJwks spaSettings tokClientIdAudience) = false) ∧
    ("api://fabricobo-api" ∈ auth_valid_audiences spaSettings ∧
     "https://login.microsoftonline.com/contoso-tenant" ∈ auth_valid_issuers spaSettings ∧
     exOk (get_current_user spaJwks spaSettings tokBareAuthorityIssuer) = false) := by
  refine ⟨⟨?_, ?_, ?_⟩, ⟨?_, ?_, ?_⟩⟩ <;> decide

/-- Claim C2 as amended: on the SPA request path, for a credential whose
signing key is found and whose signature, algorithm and expiry checks
pass, validation succeeds exactly when the audience claim equals the
single configured API audience identifier and the issuer is one of two
variants (the v2 issuer URL or the legacy v1 issuer URL); every failure
of the validator is a 401. -/
theorem spa_validation_two_issuers_single_audience (jwks : Jwks) (s : AzureAdSettings)
    (tok : Token) (key : Jwk)
    (hraw : tok.raw ≠ "")
    (hkey : jose_find_key jwks tok.kid = some key)
    (halg : tok.alg = some "RS256")
    (hsig : tok.signedBy = some key.kid)
    (hexp : tok.expired = false) :
    (exOk (get_current_user jwks s tok) = true ↔
      (dget tok.claims "aud" = some s.audience ∧
       ((dget tok.claims "iss").getD "") ∈ spa_valid_issuers s)) ∧
    (exOk (get_current_user jwks s tok) = false →
      errStatus (get_current_user jwks s tok) = some 401) := by
  unfold get_current_user jwt_decode_rs256
  rw [if_neg hraw, hkey, halg, hsig, hexp]
  simp only [ne_eq, not_true_eq_false, if_false, Bool.false_eq_true, if_neg]
  cases had : dget tok.claims "aud" with
  | none => simp [exOk, errStatus]
  | some a =>
    by_cases haud : a = s.audience
    · subst haud
      simp only [List.contains_cons, List.contains_nil, beq_self_eq_true, Bool.true_or,
        if_true]
      by_cases hiss : ((dget tok.claims "iss").getD "") ∈ spa_valid_issuers s
      · simp [hiss, exOk, errStatus]
      · simp [hiss, exOk, errStatus]
  -- the audience-mismatch case
    · have hne : ([s.audience].contains a) = false := by
        simp [List.contains_cons, haud]
      simp [hne, exOk, errStatus, haud]

/-- Witness for the amended C2 at the concrete accepted token. -/
theorem spa_validation_two_issuers_single_audience_witness :
    (exOk (get_current_user spaJwks spaSettings tokOk) = true ↔
      (dget tokOk.claims "aud" = some spaSettings.audience ∧
       ((dget tokOk.claims "iss").getD "") ∈ spa_valid_issuers spaSettings)) ∧
    (exOk (get_current_user spaJwks spaSettings tokOk) = false →
      errStatus (get_current_user spaJwks spaSettings tokOk) = some 401) :=
  spa_validation_two_issuers_single_audience spaJwks spaSettings tokOk ⟨"k1"⟩
    (by decide) (by decide) rfl rfl rfl

/-- Claim C9: every identity the SPA validator produces carries the
inbound raw credential under `_raw_token`, so the 500 "raw token not
available" branch of `post_agent` is unreachable and the OBO exchange
receives exactly the credential that passed validation. -/
theorem validated_identity_carries_raw_token (jwks : Jwks) (s : AzureAdSettings)
    (tok : Token) (c : TokenClaims)
    (h : get_current_user jwks s tok = .ok c) :
    dget c.raw_claims "_raw_token" = some tok.raw ∧
    post_agent_raw_for_obo c = .ok tok.raw := by
  unfold get_current_user at h
  split at h
  · exact absurd h (by simp)
  next hraw =>
    split at h
    · exact absurd h (by simp)
    next key hkey =>
      split at h
      next e hdec => exact absurd h (by simp)
      next claims hdec =>
        split at h
        · injection h with h
          subst h
          refine ⟨?_, ?_⟩
          · simp [TokenClaims.ofClaims, dget]
          · simp [post_agent_raw_for_obo, TokenClaims.ofClaims, dget, hraw]
        · exact absurd h (by simp)

/-- The identity `get_current_user` produces for `tokOk`. -/
def spaClaimsOk : TokenClaims :=
  TokenClaims.ofClaims (("_raw_token", "hdr.payload.sig") :: validClaims)

/-- Witness for C9 at the concrete accepted token. -/
theorem validated_identity_carries_raw_token_witness :
    dget spaClaimsOk.raw_claims "_raw_token" = some "hdr.payload.sig" ∧
    post_agent_raw_for_obo spaClaimsOk = .ok "hdr.payload.sig" :=
  validated_identity_carries_raw_token spaJwks spaSettings tokOk spaClaimsOk rfl

/-- Claim C6: when the entitlement lookup raises, `post_agent` behaves
exactly as it would had the lookup returned the default
"authorized, no rep code, no role" result for the caller — the request
is not aborted and continues into OBO exchange and agent invocation. -/
theorem entitlement_failure_non_fatal (env : SpaEnv) (req : AgentRequest)
    (user : TokenClaims) (correlation_id : String)
    (h : env.entitlement = .error ()) :
    post_agent env req user correlation_id =
      post_agent { env with entitlement := .ok (default_entitlement user.upn user.oid) }
        req user correlation_id := by
  simp [post_agent, h, default_entitlement]

/-- A concrete `post_agent` environment whose entitlement lookup raises. -/
def spaEnvEntFail : SpaEnv :=
  { entitlement := .error ()
    obo := { access_token := some "obo-token-123" }
    foundrySettings := {}
    foundry := { createConv := .ok "conv_1", callResponses := .error .timeout } }

/-- Witness for C6 at a concrete failing entitlement environment. -/
theorem entitlement_failure_non_fatal_witness :
    post_agent spaEnvEntFail { question := "Show me my accounts" } spaClaimsOk "corr1" =
      post_agent { spaEnvEntFail with
        entitlement := .ok (default_entitlement spaClaimsOk.upn spaClaimsOk.oid) }
        { question := "Show me my accounts" } spaClaimsOk "corr1" :=
  entitlement_failure_non_fatal _ _ _ _ rfl

/-- Claim C7: a message whose stripped text is exactly six digits is
passed to the token-store lookup as the confirmation code, and when that
lookup yields a token the turn performs exactly two effects — the lookup
and the sign-in confirmation reply — with no OBO exchange and no agent
invocation, acknowledging with 200. -/
theorem magic_code_sign_in_reply (env : BotEnv) (settings : BotSettings) (body : Activity)
    (correlation_id btok utok : String)
    (htype : body.type = "message")
    (hlen : (pyStrip (body.text.getD "")).length = 6)
    (hdig : (pyStrip (body.text.getD "")).data.all Char.isDigit = true)
    (hbt : env.botToken = .ok btok)
    (hstat : env.getTokenStatus (some (pyStrip (body.text.getD ""))) = 200)
    (htok : env.getTokenField (some (pyStrip (body.text.getD ""))) = some utok)
    (hutok : utok ≠ "")
    (hsvc : body.serviceUrl ≠ "") :
    handle_bot_message env settings correlation_id (some body) =
      ([BotEffect.tokenLookup ((body.fromAcc.bind Account.id).getD "unknown")
          body.channelId settings.oauth_connection_name
          (some (pyStrip (body.text.getD ""))),
        BotEffect.sentReply "You\x27re signed in! Please type your question now."],
       .ok 200) := by
  have hq : ¬ (pyStrip (body.text.getD "") = "") := by
    intro hq
    rw [hq] at hlen
    simp at hlen
  simp [handle_bot_message, handle_message_activity, get_user_token, send_text_reply,
    pyTruthy, htype, hq, hlen, hdig, hbt, hstat, htok, hutok, hsvc]

/-- Bot settings for concrete runs. -/
def botSettingsX : BotSettings := { oauth_connection_name := "FabricOAuth" }

/-- A bot environment where every external call succeeds and the token
store holds a user token. -/
def botEnvMagic : BotEnv :=
  { botToken := .ok "bot-connector-token"
    getTokenStatus := fun _ => 200
    getTokenField := fun _ => some "user-oauth-token"
    signInStatus := 404
    signInLinkField := none
    obo := { access_token := some "obo-token" }
    userTokenClaims := none
    entitlementUsers := []
    foundrySettings := {}
    foundry := { createConv := .ok "conv_1", callResponses := .error .timeout } }

/-- The magic-code sign-in activity of the spec scenario. -/
def actMagic : Activity :=
  { type := "message"
    text := some "482913"
    fromAcc := some { id := some "user-1", name := some "Alice" }
    recipient := some { id := some "bot-1" }
    conversation := some { id := some "conv-1" }
    id := some "act-1"
    serviceUrl := "https://smba.trafficmanager.net/amer/"
    channelId := "msteams" }

/-- Witness for C7 at the spec scenario input `"482913"`. -/
theorem magic_code_sign_in_reply_witness :
    handle_bot_message botEnvMagic botSettingsX "corr1" (some actMagic) =
      ([BotEffect.tokenLookup "user-1" "msteams" "FabricOAuth" (some "482913"),
        BotEffect.sentReply "You\x27re signed in! Please type your question now."],
       .ok 200) :=
  magic_code_sign_in_reply botEnvMagic botSettingsX actMagic "corr1"
    "bot-connector-token" "user-oauth-token"
    rfl (by decide) (by decide) rfl rfl rfl (by decide) (by decide)

/-- A bot environment in which MSAL cannot obtain a Bot Connector token:
`_get_bot_token` raises `RuntimeError`. -/
def botEnvTokenFail : BotEnv :=
  { botToken := .error "Failed to get bot connector token: invalid_client"
    getTokenStatus := fun _ => 200
    getTokenField := fun _ => some "user-oauth-token"
    signInStatus := 200
    signInLinkField := some "https://token.botframework.com/signin"
    obo := { access_token := some "obo-token" }
    userTokenClaims := none
    entitlementUsers := []
    foundrySettings := {}
    foundry := { createConv := .ok "conv_1", callResponses := .error .timeout } }

/-- An ordinary question activity. -/
def actQuestion : Activity :=
  { type := "message"
    text := some "show my accounts"
    fromAcc := some { id := some "user-1", name := some "Alice" }
    recipient := some { id := some "bot-1" }
    conversation := some { id := some "conv-1" }
    id := some "act-1"
    serviceUrl := "https://smba.trafficmanager.net/amer/"
    channelId := "msteams" }

/-- Against claim C6 of the spec (claim C3 here): on a JSON-parseable
message activity, when bot-connector token acquisition fails inside the
token-store lookup, `handle_bot_message` does not produce the 200
acknowledgment — the `RuntimeError` escapes the handler (and the
endpoint, whose only catch is `ImportError`), contradicting the code's
own "Always return 200 to the Bot Connector" contract. -/
theorem bot_token_failure_breaks_ack :
    handle_bot_message botEnvTokenFail botSettingsX "corr2" (some actQuestion) =
      ([], .error "Failed to get bot connector token: invalid_client") ∧
    exOk (handle_bot_message botEnvTokenFail botSettingsX "corr2" (some actQuestion)).2 =
      false := by
  refine ⟨rfl, rfl⟩
